import Mathlib

/-!
Shallow embedding of the roster manager (Django app `students`): the three
tables of `students/models.py` (Section, Student, Enrollment), the
aggregation / export / API view functions of `students/views.py`, and the
write-time behaviour induced by the declared constraints (`unique=True`,
`UniqueConstraint`, `on_delete=PROTECT` / `CASCADE`).

Conventions:
- a database state is a `DB`: the three tables as lists of rows;
- ORM querysets are embedded at the SQL level they compile to:
  `annotate(Count("rev_rel"))` is a LEFT OUTER JOIN followed by a
  `COUNT(col)` that counts non-null joined rows (`leftJoinRows` /
  `sqlCount`), and `Count(..., filter=Q(...))` is `COUNT(col) FILTER
  (WHERE ...)` (`sqlCountFilter`);
- `order_by("code")` and `order_by("last_name", "first_name")` are
  `sortBy` with the corresponding comparators;
- `icontains` is case-insensitive substring containment (`icontains`).
-/

/-- Row of the Section table (`students/models.py`, class Section):
auto primary key `section_id`, unique `code`, `name`, and `term`
(a CharField with `blank=True`, so "no term" is the empty string). -/
structure Section where
  section_id : Nat
  code : String
  name : String
  term : String
deriving DecidableEq, Repr

/-- Row of the Student table (`students/models.py`, class Student):
auto primary key, names, optional nickname (blank = empty string), unique
email, and the foreign key `section` (stored as `section_id`). -/
structure Student where
  student_id : Nat
  first_name : String
  last_name : String
  nickname : String
  email : String
  section_id : Nat
deriving DecidableEq, Repr

/-- Row of the Enrollment table (`students/models.py`, class Enrollment):
auto primary key, foreign keys to Student and Section, creation date
(abstracted to a `Nat`), and the active flag. -/
structure Enrollment where
  enroll_id : Nat
  student_id : Nat
  section_id : Nat
  enrolled_on : Nat
  is_active : Bool
deriving DecidableEq, Repr

/-- A database state: the contents of the three tables. -/
structure DB where
  sections : List Section
  students : List Student
  enrollments : List Enrollment
deriving DecidableEq, Repr

/-- The rows of a LEFT OUTER JOIN restricted to one left row: the list of
matching right rows, or a single null row when none matches. -/
def leftJoinRows {α : Type} (matching : List α) : List (Option α) :=
  match matching with
  | [] => [none]
  | l => l.map some

/-- SQL `COUNT(col)`: the number of non-null values in the column. -/
def sqlCount {α : Type} (rows : List (Option α)) : Nat :=
  (rows.filter (fun r => r.isSome)).length

/-- SQL `COUNT(col) FILTER (WHERE p)`: non-null values satisfying `p`. -/
def sqlCountFilter {α : Type} (p : α → Bool) (rows : List (Option α)) : Nat :=
  (rows.filter (fun r => match r with | some a => p a | none => false)).length

/-- ASCII lowercase of one character — the case folding SQLite applies to
`icontains` (its LIKE is case-insensitive on ASCII only). -/
def lowerChar (c : Char) : Char :=
  if 65 ≤ c.toNat && c.toNat ≤ 90 then Char.ofNat (c.toNat + 32) else c

/-- Does the needle start the haystack? (character lists) -/
def startsWithList : List Char → List Char → Bool
  | [], _ => true
  | _ :: _, [] => false
  | a :: t, b :: u => decide (a = b) && startsWithList t u

/-- Does the needle occur contiguously inside the haystack? -/
def containsSub (needle : List Char) : List Char → Bool
  | [] => startsWithList needle []
  | b :: u => startsWithList needle (b :: u) || containsSub needle u

/-- Django `icontains`: case-insensitive substring test. -/
def icontains (hay needle : String) : Bool :=
  containsSub (needle.data.map lowerChar) (hay.data.map lowerChar)

/-- The whitespace characters `str.strip()` removes (ASCII). -/
def isPySpace (c : Char) : Bool :=
  c.toNat == 32 || c.toNat == 9 || c.toNat == 10 || c.toNat == 13 ||
  c.toNat == 11 || c.toNat == 12

/-- Python `str.strip()` as applied to the `q` parameter. -/
def strip (s : String) : String :=
  String.mk (((s.data.dropWhile isPySpace).reverse.dropWhile
    isPySpace).reverse)

/-- Lexicographic ≤ on character lists (ascending string order). -/
def listLe : List Char → List Char → Bool
  | [], _ => true
  | _ :: _, [] => false
  | a :: t, b :: u => decide (a < b) || (decide (a = b) && listLe t u)

/-- Ascending string comparison, as SQL `ORDER BY` sorts text. -/
def strLe (a b : String) : Bool :=
  listLe a.data b.data

/-- Comparator for `order_by("code")` on Sections. -/
def codeLe (a b : Section) : Bool :=
  strLe a.code b.code

/-- Comparator for `order_by("last_name", "first_name")`: lexicographic on
the (last name, first name) pair. -/
def nameLe (l1 f1 l2 f2 : String) : Bool :=
  if l1 = l2 then strLe f1 f2 else strLe l1 l2

/-- Insert into a list sorted by the comparator `le` (helper of `sortBy`). -/
def insertBy {α : Type} (le : α → α → Bool) (a : α) : List α → List α
  | [] => [a]
  | b :: t => if le a b then a :: b :: t else b :: insertBy le a t

/-- The SQL `ORDER BY` of the embedded querysets: a stable sort by the
given comparator. -/
def sortBy {α : Type} (le : α → α → Bool) : List α → List α
  | [] => []
  | a :: t => insertBy le a (sortBy le t)

/-- `Section.objects.values("code","name").annotate(n_students=
Count("section_related_name")).order_by("code")` — the per-section student
counts used by `StudentListView.get_context_data` (views.py, B) and, in
`values("code", "n_students")` form, by `api_students_per_section`. -/
def students_per_section_rows (db : DB) : List (String × Nat) :=
  (sortBy codeLe db.sections).map (fun sec =>
    (sec.code,
      sqlCount (leftJoinRows
        (db.students.filter (fun st => st.section_id == sec.section_id)))))

/-- Response shape of `GET /api/sections/students/`. -/
structure LabelsCounts where
  labels : List String
  counts : List Nat
deriving DecidableEq, Repr

/-- `api_students_per_section` (views.py): labels and counts arrays taken
from the per-section rows. -/
def api_students_per_section (db : DB) : LabelsCounts :=
  { labels := (students_per_section_rows db).map Prod.fst,
    counts := (students_per_section_rows db).map Prod.snd }

/-- One row of `GET /api/sections/enrollments/`. -/
structure EnrollRow where
  code : String
  n_all : Nat
  n_active : Nat
deriving DecidableEq, Repr

/-- `api_enrollments_per_section` (views.py): per Section, ordered by code,
`n_all = Count("enrollments_related_name")` and `n_active = Count(...,
filter=Q(enrollments_related_name__is_active=True))`. -/
def api_enrollments_per_section (db : DB) : List EnrollRow :=
  (sortBy codeLe db.sections).map (fun sec =>
    { code := sec.code,
      n_all :=
        sqlCount (leftJoinRows
          (db.enrollments.filter (fun e => e.section_id == sec.section_id))),
      n_active :=
        sqlCountFilter (fun e => e.is_active) (leftJoinRows
          (db.enrollments.filter (fun e => e.section_id == sec.section_id))) })

/-- The scenario database of §8: Section `CS101-A` with 2 Students; the
first has one active and one inactive Enrollment, the second one active. -/
def scenarioDB : DB :=
  { sections := [{ section_id := 1, code := "CS101-A",
                   name := "Intro to CS - A", term := "Fall 2025" }],
    students :=
      [{ student_id := 1, first_name := "Alice", last_name := "Adams",
         nickname := "", email := "alice@example.com", section_id := 1 },
       { student_id := 2, first_name := "Bob", last_name := "Baker",
         nickname := "", email := "bob@example.com", section_id := 1 }],
    enrollments :=
      [{ enroll_id := 1, student_id := 1, section_id := 1,
         enrolled_on := 0, is_active := true },
       { enroll_id := 2, student_id := 1, section_id := 1,
         enrolled_on := 0, is_active := false },
       { enroll_id := 3, student_id := 2, section_id := 1,
         enrolled_on := 0, is_active := true }] }

/-- A database with the scenario Section plus a second Section that no
Student or Enrollment references. -/
def C2db : DB :=
  { scenarioDB with
    sections := scenarioDB.sections ++
      [{ section_id := 2, code := "EMPTY-1", name := "Empty", term := "" }] }

/-- One row of the flat student roster used by both export views:
(student id, first name, last name, email, section code). -/
structure StudentRow where
  student_id : Nat
  first_name : String
  last_name : String
  email : String
  section_code : String
deriving DecidableEq, Repr

/-- `select_related("section")` / `values("section__code")`: the code of
the Section a Student's foreign key points to (the FK is non-null and
write-time checked, so the lookup succeeds on well-formed states). -/
def section__code (db : DB) (st : Student) : String :=
  ((db.sections.find? (fun s => s.section_id == st.section_id)).map
    (fun s => s.code)).getD ""

/-- `order_by("last_name", "first_name")` on roster rows. -/
def rowLe (a b : StudentRow) : Bool :=
  nameLe a.last_name a.first_name b.last_name b.first_name

/-- `export_students_csv` (views.py): the written CSV, as its list of rows
— the fixed header then, per student of `Student.objects
.select_related("section").values_list("student_id","first_name",
"last_name","email","section__code").order_by("last_name","first_name")`,
the five cells as the csv writer renders them. -/
def export_students_csv_rows (db : DB) : List (List String) :=
  ["student_id", "first_name", "last_name", "email", "section_code"] ::
  (sortBy rowLe (db.students.map (fun st =>
    ({ student_id := st.student_id, first_name := st.first_name,
       last_name := st.last_name, email := st.email,
       section_code := section__code db st } : StudentRow)))).map
    (fun r => [toString r.student_id, r.first_name, r.last_name,
               r.email, r.section_code])

/-- Envelope of `export_students_json`. -/
structure StudentsJsonExport where
  generated_at : String
  record_count : Nat
  students : List StudentRow
deriving DecidableEq, Repr

/-- `export_students_json` (views.py): the same roster query
(`values("student_id","first_name","last_name","email","section__code")
.order_by("last_name","first_name")`) wrapped with the generation
timestamp (`now`, kept abstract) and the record count. -/
def export_students_json (db : DB) (now : String) : StudentsJsonExport :=
  let data := sortBy rowLe (db.students.map (fun st =>
    ({ student_id := st.student_id, first_name := st.first_name,
       last_name := st.last_name, email := st.email,
       section_code := section__code db st } : StudentRow)))
  { generated_at := now, record_count := data.length, students := data }

/-- A JSON value (payloads of the weather endpoint). -/
inductive JVal where
  | obj (fields : List (String × JVal))
  | arr (elems : List JVal)
  | str (s : String)
  | num (n : Int)
  | bool (b : Bool)
  | null

/-- Outcome of the external weather fetch as `WeatherNow.get` observes it:
either the parsed JSON object of a 2xx response, or a
`requests.exceptions.RequestException` — connection error, timeout, or the
`HTTPError` that `raise_for_status` raises on a non-2xx status — carrying
its message. -/
inductive FetchOutcome where
  | success (body : List (String × JVal))
  | failure (msg : String)

/-- An HTTP response of the weather endpoint: status code and JSON body. -/
structure WeatherResponse where
  status : Nat
  payload : List (String × JVal)

/-- Python `dict.get` on a JSON object: the value under the first
occurrence of the key, if any. -/
def jLookup (fields : List (String × JVal)) (k : String) : Option JVal :=
  match fields with
  | [] => none
  | (k2, v) :: rest => if k2 = k then some v else jLookup rest k

/-- `WeatherNow.get` (views.py): on success, HTTP 200 with
`{ok: true, weather: body.get("current_weather", {})}`; on a
`RequestException`, HTTP 502 with `{ok: false, error: str(e)}`. -/
def WeatherNow_get (o : FetchOutcome) : WeatherResponse :=
  match o with
  | .success body =>
      { status := 200,
        payload := [("ok", JVal.bool true),
          ("weather", (jLookup body "current_weather").getD (JVal.obj []))] }
  | .failure msg =>
      { status := 502,
        payload := [("ok", JVal.bool false), ("error", JVal.str msg)] }

/-- `true` exactly on the `error` case of an `Except`. -/
def isErr {e a : Type} : Except e a → Bool
  | .error _ => true
  | .ok _ => false

/-- Write of one Student row under the constraints declared in
`students/models.py`: primary-key uniqueness, `email` `unique=True`, the
`UniqueConstraint` on `(first_name, last_name, section)`, and the foreign
key to Section. The row is appended only when every check passes. -/
def insertStudent (db : DB) (st : Student) : Except String DB :=
  if db.students.any (fun s => s.student_id == st.student_id) then
    Except.error "UNIQUE constraint failed: student_id"
  else if db.students.any (fun s => s.email == st.email) then
    Except.error "UNIQUE constraint failed: email"
  else if db.students.any (fun s =>
      s.first_name == st.first_name && s.last_name == st.last_name &&
      s.section_id == st.section_id) then
    Except.error "UNIQUE constraint failed: uniq_student_name_in_section"
  else if !(db.sections.any (fun s => s.section_id == st.section_id)) then
    Except.error "FOREIGN KEY constraint failed"
  else
    Except.ok { db with students := db.students ++ [st] }

/-- Write of one Enrollment row under the declared constraints:
primary-key uniqueness, the `UniqueConstraint` on `(student, section)`,
and the two foreign keys. -/
def insertEnrollment (db : DB) (e : Enrollment) : Except String DB :=
  if db.enrollments.any (fun x => x.enroll_id == e.enroll_id) then
    Except.error "UNIQUE constraint failed: enroll_id"
  else if db.enrollments.any (fun x =>
      x.student_id == e.student_id && x.section_id == e.section_id) then
    Except.error
      "UNIQUE constraint failed: uniq_enrollment_per_student_per_section"
  else if !(db.students.any (fun s => s.student_id == e.student_id)) ||
      !(db.sections.any (fun s => s.section_id == e.section_id)) then
    Except.error "FOREIGN KEY constraint failed"
  else
    Except.ok { db with enrollments := db.enrollments ++ [e] }

/-- Deletion of a Section under `on_delete=PROTECT` declared on
`Student.section` and `Enrollment.section`: blocked (ProtectedError)
while any Student or Enrollment references the row. -/
def deleteSection (db : DB) (sid : Nat) : Except String DB :=
  if db.students.any (fun st => st.section_id == sid) ||
      db.enrollments.any (fun e => e.section_id == sid) then
    Except.error "ProtectedError"
  else
    Except.ok { db with
      sections := db.sections.filter (fun s => !(s.section_id == sid)) }

/-- Deletion of a Student under `on_delete=CASCADE` declared on
`Enrollment.student`: the row goes, and its Enrollments go with it. -/
def deleteStudent (db : DB) (sid : Nat) : DB :=
  { sections := db.sections,
    students := db.students.filter (fun st => !(st.student_id == sid)),
    enrollments := db.enrollments.filter (fun e => !(e.student_id == sid)) }

/-- One row of the `GET /api/students/` results. -/
structure ApiStudentRow where
  student_id : Nat
  first_name : String
  last_name : String
  nickname : String
  email : String
  section__code : String
deriving DecidableEq, Repr

/-- `values("student_id","first_name","last_name","nickname","email",
"section__code")` applied to one Student. -/
def toApiRow (db : DB) (st : Student) : ApiStudentRow :=
  { student_id := st.student_id, first_name := st.first_name,
    last_name := st.last_name, nickname := st.nickname,
    email := st.email, section__code := section__code db st }

/-- `order_by("last_name", "first_name")` on API rows. -/
def apiRowLe (a b : ApiStudentRow) : Bool :=
  nameLe a.last_name a.first_name b.last_name b.first_name

/-- The queryset of the first `api_students` function definition
(views.py line 307): all Students, or — when the stripped `q` is
non-empty — the Students matching it case-insensitively on first name OR
last name OR nickname; projected to the six `values(...)` fields. -/
def api_students_v1_qs (db : DB) (q : String) : List ApiStudentRow :=
  if q ≠ "" then
    (db.students.filter (fun st =>
      icontains st.first_name q || icontains st.last_name q ||
      icontains st.nickname q)).map (toApiRow db)
  else
    db.students.map (toApiRow db)

/-- The first `api_students` function definition (views.py line 307):
strip the `q` parameter, take the queryset above, order it by last then
first name, and return the pair (count, results). -/
def api_students_v1 (db : DB) (qparam : Option String) :
    Nat × List ApiStudentRow :=
  ((sortBy apiRowLe (api_students_v1_qs db (strip (qparam.getD "")))).length,
   sortBy apiRowLe (api_students_v1_qs db (strip (qparam.getD ""))))

/-- The queryset of the second `api_students` function definition
(views.py line 330) — the same pipeline as the first. -/
def api_students_qs (db : DB) (q : String) : List ApiStudentRow :=
  if q ≠ "" then
    (db.students.filter (fun st =>
      icontains st.first_name q || icontains st.last_name q ||
      icontains st.nickname q)).map (toApiRow db)
  else
    db.students.map (toApiRow db)

/-- The second `api_students` function definition (views.py line 330); at
module load the name `api_students` ends up bound to this one. Strip `q`,
filter / project as above, order by last then first name, return the pair
(count, results). -/
def api_students (db : DB) (qparam : Option String) :
    Nat × List ApiStudentRow :=
  ((sortBy apiRowLe (api_students_qs db (strip (qparam.getD "")))).length,
   sortBy apiRowLe (api_students_qs db (strip (qparam.getD ""))))

/-- What the C7 claim mandates for a non-empty raw query string `q`:
exactly the Students for which `q` itself (unstripped) matches first
name OR last name OR nickname case-insensitively, ordered by last then
first name. Written from the claim, to be compared with `api_students`. -/
def spec_filtered_roster (db : DB) (q : String) : List ApiStudentRow :=
  sortBy apiRowLe ((db.students.filter (fun st =>
    icontains st.first_name q || icontains st.last_name q ||
    icontains st.nickname q)).map (toApiRow db))

/-- Model Meta ordering (`last_name`, `first_name`) on Student rows. -/
def studentLe (a b : Student) : Bool :=
  nameLe a.last_name a.first_name b.last_name b.first_name

/-- The `search_results` context value of `StudentListView
.get_context_data` (views.py line 19): when the `q` parameter is truthy
(present and non-empty), `Student.objects
.filter(first_name__icontains=q)` with the model Meta ordering;
otherwise `None`. -/
def studentListView_search_results (db : DB) (qp : Option String) :
    Option (List Student) :=
  if qp.getD "" ≠ "" then
    some (sortBy studentLe (db.students.filter
      (fun st => icontains st.first_name (qp.getD ""))))
  else
    none

/-- `Section.objects.values("term").annotate(n_students=
Count("section_related_name")).order_by("term")` (views.py, D): GROUP BY
`term` over Sections LEFT JOINed with Students — blank-term Sections all
land in the one `""` group — counting non-null student rows per group,
groups ordered by term ascending. -/
def students_per_term (db : DB) : List (String × Nat) :=
  (sortBy strLe ((db.sections.map (fun s => s.term)).dedup)).map (fun t =>
    (t, sqlCount ((db.sections.filter (fun s => s.term == t)).flatMap
      (fun sec => leftJoinRows (db.students.filter
        (fun st => st.section_id == sec.section_id))))))

/-- Database for the C7 counterexample and search witnesses: one Student,
no whitespace in any of the searched fields. -/
def C7db : DB :=
  { sections := [{ section_id := 1, code := "CS101-A",
                   name := "Intro to CS - A", term := "Fall 2025" }],
    students :=
      [{ student_id := 1, first_name := "Alice", last_name := "Smith",
         nickname := "", email := "alice@example.com", section_id := 1 }],
    enrollments := [] }

/-- Database for the per-term witness: two terms, one of them blank. -/
def C8db : DB :=
  { sections :=
      [{ section_id := 1, code := "CS101-A",
         name := "Intro to CS - A", term := "Fall 2025" },
       { section_id := 2, code := "CS101-B",
         name := "Intro to CS - B", term := "" },
       { section_id := 3, code := "CS101-C",
         name := "Intro to CS - C", term := "" }],
    students :=
      [{ student_id := 1, first_name := "Alice", last_name := "Adams",
         nickname := "", email := "alice@example.com", section_id := 1 },
       { student_id := 2, first_name := "Bob", last_name := "Baker",
         nickname := "", email := "bob@example.com", section_id := 2 }],
    enrollments := [] }

-- ## Theorems

theorem sqlCount_leftJoinRows {α : Type} (l : List α) :
    sqlCount (leftJoinRows l) = l.length := by
  cases l with
  | nil => rfl
  | cons a t =>
    simp [leftJoinRows, sqlCount, List.filter_map, Function.comp]

theorem sqlCountFilter_leftJoinRows {α : Type} (p : α → Bool) (l : List α) :
    sqlCountFilter p (leftJoinRows l) = (l.filter p).length := by
  cases l with
  | nil => rfl
  | cons a t =>
    show (((a :: t).map some).filter
      fun r => match r with | some x => p x | none => false).length = _
    rw [List.filter_map]
    have hc : ((fun r => match r with | some x => p x | none => false)
        ∘ some) = p := rfl
    rw [hc, List.length_map]


theorem insertBy_perm {α : Type} (le : α → α → Bool) (a : α) (l : List α) :
    (insertBy le a l).Perm (a :: l) := by
  induction l with
  | nil => exact List.Perm.refl _
  | cons b t ih =>
    simp only [insertBy]
    split
    · exact List.Perm.refl _
    · exact (ih.cons b).trans (List.Perm.swap a b t)

theorem sortBy_perm {α : Type} (le : α → α → Bool) (l : List α) :
    (sortBy le l).Perm l := by
  induction l with
  | nil => exact List.Perm.refl _
  | cons a t ih =>
    exact (insertBy_perm le a (sortBy le t)).trans (ih.cons a)

theorem mem_insertBy {α : Type} (le : α → α → Bool) (a x : α) (l : List α) :
    x ∈ insertBy le a l ↔ x = a ∨ x ∈ l := by
  rw [(insertBy_perm le a l).mem_iff]
  simp

theorem mem_sortBy {α : Type} (le : α → α → Bool) (x : α) (l : List α) :
    x ∈ sortBy le l ↔ x ∈ l :=
  (sortBy_perm le l).mem_iff

theorem sorted_insertBy {α : Type} {le : α → α → Bool}
    (htrans : ∀ a b c, le a b = true → le b c = true → le a c = true)
    (htotal : ∀ a b, (le a b || le b a) = true) (a : α) (l : List α)
    (h : List.Pairwise (fun x y => le x y = true) l) :
    List.Pairwise (fun x y => le x y = true) (insertBy le a l) := by
  induction l with
  | nil => simp [insertBy]
  | cons b t ih =>
    simp only [insertBy]
    rcases List.pairwise_cons.mp h with ⟨hb, ht⟩
    split
    · rename_i hab
      refine List.pairwise_cons.mpr ⟨?_, h⟩
      intro x hx
      rcases List.mem_cons.mp hx with rfl | hxt
      · exact hab
      · exact htrans a b x hab (hb x hxt)
    · rename_i hab
      have hba : le b a = true := by
        rcases Bool.or_eq_true_iff.mp (htotal a b) with h1 | h1
        · exact absurd h1 hab
        · exact h1
      refine List.pairwise_cons.mpr ⟨?_, ih ht⟩
      intro x hx
      rcases (mem_insertBy le a x t).mp hx with rfl | hxt
      · exact hba
      · exact hb x hxt

theorem sorted_sortBy {α : Type} {le : α → α → Bool}
    (htrans : ∀ a b c, le a b = true → le b c = true → le a c = true)
    (htotal : ∀ a b, (le a b || le b a) = true) (l : List α) :
    List.Pairwise (fun x y => le x y = true) (sortBy le l) := by
  induction l with
  | nil => exact List.Pairwise.nil
  | cons a t ih => exact sorted_insertBy htrans htotal a (sortBy le t) ih

theorem listLe_refl : ∀ x : List Char, listLe x x = true
  | [] => rfl
  | a :: t => by
    have ht := listLe_refl t
    simp [listLe, ht]

theorem listLe_trans : ∀ x y z : List Char,
    listLe x y = true → listLe y z = true → listLe x z = true
  | [], _, _, _, _ => rfl
  | _ :: _, [], _, hxy, _ => by simp [listLe] at hxy
  | _ :: _, _ :: _, [], _, hyz => by simp [listLe] at hyz
  | a :: t, b :: u, c :: v, hxy, hyz => by
    simp only [listLe, Bool.or_eq_true, Bool.and_eq_true,
      decide_eq_true_eq] at hxy hyz ⊢
    rcases hxy with h1 | ⟨rfl, h1⟩
    · rcases hyz with h2 | ⟨rfl, h2⟩
      · exact Or.inl (lt_trans h1 h2)
      · exact Or.inl h1
    · rcases hyz with h2 | ⟨rfl, h2⟩
      · exact Or.inl h2
      · exact Or.inr ⟨rfl, listLe_trans t u v h1 h2⟩

theorem listLe_total : ∀ x y : List Char, (listLe x y || listLe y x) = true
  | [], _ => by simp [listLe]
  | _ :: _, [] => by simp [listLe]
  | a :: t, b :: u => by
    simp only [listLe, Bool.or_eq_true, Bool.and_eq_true, decide_eq_true_eq]
    rcases lt_trichotomy a b with h | rfl | h
    · exact Or.inl (Or.inl h)
    · rcases Bool.or_eq_true_iff.mp (listLe_total t u) with h | h
      · exact Or.inl (Or.inr ⟨rfl, h⟩)
      · exact Or.inr (Or.inr ⟨rfl, h⟩)
    · exact Or.inr (Or.inl h)

theorem listLe_antisymm : ∀ x y : List Char,
    listLe x y = true → listLe y x = true → x = y
  | [], [], _, _ => rfl
  | [], _ :: _, _, h2 => by simp [listLe] at h2
  | _ :: _, [], h1, _ => by simp [listLe] at h1
  | a :: t, b :: u, h1, h2 => by
    simp only [listLe, Bool.or_eq_true, Bool.and_eq_true,
      decide_eq_true_eq] at h1 h2
    rcases h1 with h1 | ⟨rfl, h1⟩
    · rcases h2 with h2 | ⟨h, h2⟩
      · exact absurd h2 (lt_asymm h1)
      · exact absurd h1 (h ▸ lt_irrefl a)
    · rcases h2 with h2 | ⟨h, h2⟩
      · exact absurd h2 (lt_irrefl a)
      · rw [listLe_antisymm t u h1 h2]

theorem not_lex_of_listLe : ∀ x y : List Char,
    listLe x y = true → ¬ List.Lex (· < ·) y x
  | [], _, _, hlex => by cases hlex
  | _ :: _, [], h, _ => by simp [listLe] at h
  | a :: t, b :: u, h, hlex => by
    simp only [listLe, Bool.or_eq_true, Bool.and_eq_true,
      decide_eq_true_eq] at h
    cases hlex with
    | cons hut =>
      rcases h with h1 | ⟨_, h1⟩
      · exact absurd h1 (lt_irrefl _)
      · exact absurd hut (not_lex_of_listLe t u h1)
    | rel hba =>
      rcases h with h1 | ⟨rfl, _⟩
      · exact absurd hba (lt_asymm h1)
      · exact absurd hba (lt_irrefl _)

theorem lex_of_listLe_ne : ∀ x y : List Char,
    listLe x y = true → x ≠ y → List.Lex (· < ·) x y
  | [], [], _, hne => absurd rfl hne
  | [], _ :: _, _, _ => List.Lex.nil
  | _ :: _, [], h, _ => by simp [listLe] at h
  | a :: t, b :: u, h, hne => by
    simp only [listLe, Bool.or_eq_true, Bool.and_eq_true,
      decide_eq_true_eq] at h
    rcases h with h1 | ⟨rfl, h1⟩
    · exact List.Lex.rel h1
    · exact List.Lex.cons
        (lex_of_listLe_ne t u h1 (fun ht => hne (by rw [ht])))

theorem strLe_trans {a b c : String} :
    strLe a b = true → strLe b c = true → strLe a c = true :=
  listLe_trans a.data b.data c.data

theorem strLe_total (a b : String) : (strLe a b || strLe b a) = true :=
  listLe_total a.data b.data

theorem strLe_antisymm {a b : String}
    (h1 : strLe a b = true) (h2 : strLe b a = true) : a = b :=
  String.ext (listLe_antisymm a.data b.data h1 h2)

theorem strLe_le {a b : String} (h : strLe a b = true) : a ≤ b :=
  String.le_iff_toList_le.mpr
    (le_of_not_lt (not_lex_of_listLe a.data b.data h))

theorem strLt_of_strLe_ne {a b : String}
    (h : strLe a b = true) (hne : a ≠ b) : a < b :=
  String.lt_iff_toList_lt.mpr
    (lex_of_listLe_ne a.data b.data h (fun hd => hne (String.ext hd)))

theorem codeLe_trans (a b c : Section) :
    codeLe a b = true → codeLe b c = true → codeLe a c = true :=
  strLe_trans

theorem codeLe_total (a b : Section) :
    (codeLe a b || codeLe b a) = true :=
  strLe_total a.code b.code

theorem nameLe_trans (l1 f1 l2 f2 l3 f3 : String) :
    nameLe l1 f1 l2 f2 = true → nameLe l2 f2 l3 f3 = true →
    nameLe l1 f1 l3 f3 = true := by
  unfold nameLe
  by_cases h12 : l1 = l2
  · subst h12
    by_cases h23 : l1 = l3
    · subst h23
      rw [if_pos rfl, if_pos rfl, if_pos rfl]
      exact strLe_trans
    · rw [if_pos rfl, if_neg h23, if_neg h23]
      exact fun _ h => h
  · by_cases h23 : l2 = l3
    · subst h23
      rw [if_neg h12, if_neg h12]
      exact fun h _ => h
    · rw [if_neg h12, if_neg h23]
      by_cases h13 : l1 = l3
      · subst h13
        intro ha hb
        exact absurd (strLe_antisymm hb ha) (fun he => h12 he.symm)
      · rw [if_neg h13]
        exact strLe_trans

theorem nameLe_total (l1 f1 l2 f2 : String) :
    (nameLe l1 f1 l2 f2 || nameLe l2 f2 l1 f1) = true := by
  unfold nameLe
  by_cases h : l1 = l2
  · subst h
    rw [if_pos rfl, if_pos rfl]
    exact strLe_total f1 f2
  · rw [if_neg h, if_neg (fun he => h he.symm)]
    exact strLe_total l1 l2

theorem nameLe_imp {a1 b1 a2 b2 : String} (h : nameLe a1 b1 a2 b2 = true) :
    a1 < a2 ∨ (a1 = a2 ∧ b1 ≤ b2) := by
  unfold nameLe at h
  by_cases he : a1 = a2
  · rw [if_pos he] at h
    exact Or.inr ⟨he, strLe_le h⟩
  · rw [if_neg he] at h
    exact Or.inl (strLt_of_strLe_ne h he)


theorem students_per_section_rows_eq (db : DB) :
    students_per_section_rows db =
      (sortBy codeLe db.sections).map (fun sec =>
        (sec.code, (db.students.filter
          (fun st => st.section_id == sec.section_id)).length)) := by
  unfold students_per_section_rows
  refine List.map_congr_left (fun sec _ => ?_)
  rw [sqlCount_leftJoinRows]

theorem api_enrollments_per_section_eq (db : DB) :
    api_enrollments_per_section db =
      (sortBy codeLe db.sections).map (fun sec =>
        { code := sec.code,
          n_all := (db.enrollments.filter
            (fun e => e.section_id == sec.section_id)).length,
          n_active := (db.enrollments.filter
            (fun e => e.is_active && e.section_id == sec.section_id)).length }) := by
  unfold api_enrollments_per_section
  refine List.map_congr_left (fun sec _ => ?_)
  rw [sqlCount_leftJoinRows, sqlCountFilter_leftJoinRows, List.filter_filter]

/-- C1: for every database state, the per-section aggregation reports, per
Section, `n_students` = number of Students whose section equals it,
`n_all` = number of Enrollments whose section equals it, and `n_active` =
number of those Enrollments with `is_active` true, with rows ordered by
section code ascending; on the `CS101-A` scenario it yields
`n_students=2, n_all=3, n_active=2`. -/
theorem per_section_aggregation_correct :
    (∀ db : DB,
      students_per_section_rows db =
        (sortBy codeLe db.sections).map (fun sec =>
          (sec.code, (db.students.filter
            (fun st => st.section_id == sec.section_id)).length))
      ∧ api_enrollments_per_section db =
        (sortBy codeLe db.sections).map (fun sec =>
          { code := sec.code,
            n_all := (db.enrollments.filter
              (fun e => e.section_id == sec.section_id)).length,
            n_active := (db.enrollments.filter
              (fun e => e.is_active && e.section_id == sec.section_id)).length })
      ∧ List.Pairwise (fun a b => a.1 ≤ b.1) (students_per_section_rows db)
      ∧ List.Pairwise (fun a b => a.code ≤ b.code)
          (api_enrollments_per_section db))
    ∧ students_per_section_rows scenarioDB = [("CS101-A", 2)]
    ∧ api_enrollments_per_section scenarioDB =
        [{ code := "CS101-A", n_all := 3, n_active := 2 }] := by
  refine ⟨fun db => ⟨?_, ?_, ?_, ?_⟩, by decide, by decide⟩
  · exact students_per_section_rows_eq db
  · exact api_enrollments_per_section_eq db
  · unfold students_per_section_rows
    rw [List.pairwise_map]
    exact (sorted_sortBy codeLe_trans codeLe_total db.sections).imp
      (fun h => strLe_le h)
  · unfold api_enrollments_per_section
    rw [List.pairwise_map]
    exact (sorted_sortBy codeLe_trans codeLe_total db.sections).imp
      (fun h => strLe_le h)

/-- C2: every Section appears in the per-section aggregation output even
when no Student or Enrollment references it, and in that case its counts
(`n_students`, `n_all`, `n_active`) are 0 — outer-join semantics. -/
theorem empty_section_appears_with_zero_counts (db : DB) (sec : Section)
    (hmem : sec ∈ db.sections)
    (hs : ∀ st ∈ db.students, st.section_id ≠ sec.section_id)
    (he : ∀ e ∈ db.enrollments, e.section_id ≠ sec.section_id) :
    (sec.code, 0) ∈ students_per_section_rows db ∧
    ({ code := sec.code, n_all := 0, n_active := 0 } : EnrollRow) ∈
      api_enrollments_per_section db := by
  have h1 : db.students.filter (fun st => st.section_id == sec.section_id)
      = [] :=
    List.filter_eq_nil_iff.mpr (fun st hst => by simpa using hs st hst)
  have h2 : db.enrollments.filter (fun e => e.section_id == sec.section_id)
      = [] :=
    List.filter_eq_nil_iff.mpr (fun e hee => by simpa using he e hee)
  have h3 : db.enrollments.filter
      (fun e => e.is_active && e.section_id == sec.section_id) = [] :=
    List.filter_eq_nil_iff.mpr (fun e hee => by simp [he e hee])
  have hsec : sec ∈ sortBy codeLe db.sections := (mem_sortBy _ _ _).mpr hmem
  constructor
  · rw [students_per_section_rows_eq]
    have hm := List.mem_map_of_mem (fun s : Section =>
      (s.code, (db.students.filter
        (fun st => st.section_id == s.section_id)).length)) hsec
    simpa [h1] using hm
  · rw [api_enrollments_per_section_eq]
    have hm := List.mem_map_of_mem (fun s : Section =>
      ({ code := s.code,
         n_all := (db.enrollments.filter
           (fun e => e.section_id == s.section_id)).length,
         n_active := (db.enrollments.filter
           (fun e => e.is_active && e.section_id == s.section_id)).length }
        : EnrollRow)) hsec
    simpa [h2, h3] using hm

theorem empty_section_appears_with_zero_counts_witness :
    (({ section_id := 2, code := "EMPTY-1", name := "Empty", term := "" }
        : Section) ∈ C2db.sections)
    ∧ ("EMPTY-1", 0) ∈ students_per_section_rows C2db
    ∧ ({ code := "EMPTY-1", n_all := 0, n_active := 0 } : EnrollRow) ∈
        api_enrollments_per_section C2db :=
  ⟨by decide,
   (empty_section_appears_with_zero_counts C2db
      { section_id := 2, code := "EMPTY-1", name := "Empty", term := "" }
      (by decide) (by decide) (by decide)).1,
   (empty_section_appears_with_zero_counts C2db
      { section_id := 2, code := "EMPTY-1", name := "Empty", term := "" }
      (by decide) (by decide) (by decide)).2⟩

theorem rowLe_trans (a b c : StudentRow) :
    rowLe a b = true → rowLe b c = true → rowLe a c = true :=
  nameLe_trans _ _ _ _ _ _

theorem rowLe_total (a b : StudentRow) : (rowLe a b || rowLe b a) = true :=
  nameLe_total _ _ _ _

theorem apiRowLe_trans (a b c : ApiStudentRow) :
    apiRowLe a b = true → apiRowLe b c = true → apiRowLe a c = true :=
  nameLe_trans _ _ _ _ _ _

theorem apiRowLe_total (a b : ApiStudentRow) :
    (apiRowLe a b || apiRowLe b a) = true :=
  nameLe_total _ _ _ _

theorem studentLe_trans (a b c : Student) :
    studentLe a b = true → studentLe b c = true → studentLe a c = true :=
  nameLe_trans _ _ _ _ _ _

theorem studentLe_total (a b : Student) :
    (studentLe a b || studentLe b a) = true :=
  nameLe_total _ _ _ _

/-- C3: exporting to CSV and to JSON at the same instant yields the same
(student id, first name, last name, email, section code) tuples in the
same order: the CSV data rows equal the JSON students array element by
element (under the csv writer's cell rendering), both carrying the same
field set and both ordered by last name then first name. -/
theorem csv_json_exports_agree (db : DB) (now : String) :
    (export_students_csv_rows db).tail =
      (export_students_json db now).students.map
        (fun r => [toString r.student_id, r.first_name, r.last_name,
                   r.email, r.section_code])
    ∧ (export_students_json db now).record_count
        = (export_students_json db now).students.length
    ∧ List.Pairwise (fun a b =>
        a.last_name < b.last_name ∨
        (a.last_name = b.last_name ∧ a.first_name ≤ b.first_name))
        (export_students_json db now).students := by
  refine ⟨rfl, rfl, ?_⟩
  exact (sorted_sortBy rowLe_trans rowLe_total
    (db.students.map (fun st =>
      ({ student_id := st.student_id, first_name := st.first_name,
         last_name := st.last_name, email := st.email,
         section_code := section__code db st } : StudentRow)))).imp
    (fun h => nameLe_imp h)

/-- C4: for every outcome of the external weather fetch, `WeatherNow.get`
returns a structured response: on success, status 200 with `ok: true` and
`weather` holding exactly the nested current-weather object (empty object
when the key is absent); on any `RequestException` — network error,
timeout, or the non-2xx `HTTPError` from `raise_for_status` — status 502
(gateway error) with `ok: false` and the error message, never a crash. -/
theorem weather_endpoint_total_and_structured (o : FetchOutcome) :
    (∀ body, o = FetchOutcome.success body →
      (WeatherNow_get o).status = 200 ∧
      jLookup (WeatherNow_get o).payload "ok" = some (JVal.bool true) ∧
      jLookup (WeatherNow_get o).payload "weather"
        = some ((jLookup body "current_weather").getD (JVal.obj [])))
    ∧ (∀ msg, o = FetchOutcome.failure msg →
      (WeatherNow_get o).status = 502 ∧
      jLookup (WeatherNow_get o).payload "ok" = some (JVal.bool false) ∧
      jLookup (WeatherNow_get o).payload "error" = some (JVal.str msg)) := by
  constructor
  · rintro body rfl
    exact ⟨rfl, rfl, rfl⟩
  · rintro msg rfl
    exact ⟨rfl, rfl, rfl⟩

theorem weather_endpoint_total_and_structured_witness :
    ((WeatherNow_get (FetchOutcome.failure "timed out")).status = 502 ∧
     jLookup (WeatherNow_get
       (FetchOutcome.failure "timed out")).payload "ok"
       = some (JVal.bool false) ∧
     jLookup (WeatherNow_get
       (FetchOutcome.failure "timed out")).payload "error"
       = some (JVal.str "timed out"))
    ∧ ((WeatherNow_get (FetchOutcome.success
         [("current_weather", JVal.num 22)])).status = 200 ∧
       jLookup (WeatherNow_get (FetchOutcome.success
         [("current_weather", JVal.num 22)])).payload "ok"
         = some (JVal.bool true) ∧
       jLookup (WeatherNow_get (FetchOutcome.success
         [("current_weather", JVal.num 22)])).payload "weather"
         = some ((jLookup [("current_weather", JVal.num 22)]
             "current_weather").getD (JVal.obj []))) :=
  ⟨(weather_endpoint_total_and_structured
      (FetchOutcome.failure "timed out")).2 "timed out" rfl,
   (weather_endpoint_total_and_structured
      (FetchOutcome.success [("current_weather", JVal.num 22)])).1
      [("current_weather", JVal.num 22)] rfl⟩

/-- C5: inserting a Student that duplicates an existing (first name, last
name, section) triple fails at write time, as does one duplicating an
existing email, and inserting an Enrollment duplicating an existing
(student, section) pair; a failed insert produces no new state, so no
partial write occurs. -/
theorem duplicate_inserts_fail (db : DB) (st : Student) (e : Enrollment) :
    ((∃ s ∈ db.students, s.first_name = st.first_name ∧
        s.last_name = st.last_name ∧ s.section_id = st.section_id) →
      isErr (insertStudent db st) = true ∧
      ∀ db2, insertStudent db st ≠ Except.ok db2)
    ∧ ((∃ s ∈ db.students, s.email = st.email) →
      isErr (insertStudent db st) = true ∧
      ∀ db2, insertStudent db st ≠ Except.ok db2)
    ∧ ((∃ x ∈ db.enrollments, x.student_id = e.student_id ∧
        x.section_id = e.section_id) →
      isErr (insertEnrollment db e) = true ∧
      ∀ db2, insertEnrollment db e ≠ Except.ok db2) := by
  refine ⟨?_, ?_, ?_⟩
  · rintro ⟨s, hmem, h1, h2, h3⟩
    have hany : db.students.any (fun s2 =>
        s2.first_name == st.first_name && s2.last_name == st.last_name &&
        s2.section_id == st.section_id) = true :=
      List.any_eq_true.mpr ⟨s, hmem, by simp [h1, h2, h3]⟩
    unfold insertStudent
    repeat' split
    all_goals exact ⟨rfl, fun db2 h => Except.noConfusion h⟩
  · rintro ⟨s, hmem, h1⟩
    have hany : db.students.any (fun s2 => s2.email == st.email) = true :=
      List.any_eq_true.mpr ⟨s, hmem, by simp [h1]⟩
    unfold insertStudent
    repeat' split
    all_goals exact ⟨rfl, fun db2 h => Except.noConfusion h⟩
  · rintro ⟨x, hmem, h1, h2⟩
    have hany : db.enrollments.any (fun x2 =>
        x2.student_id == e.student_id && x2.section_id == e.section_id)
        = true :=
      List.any_eq_true.mpr ⟨x, hmem, by simp [h1, h2]⟩
    unfold insertEnrollment
    repeat' split
    all_goals exact ⟨rfl, fun db2 h => Except.noConfusion h⟩

theorem duplicate_inserts_fail_witness :
    ((∃ s ∈ scenarioDB.students, s.first_name = "Alice" ∧
        s.last_name = "Adams" ∧ s.section_id = 1) ∧
      isErr (insertStudent scenarioDB
        { student_id := 9, first_name := "Alice", last_name := "Adams",
          nickname := "", email := "fresh@example.com",
          section_id := 1 }) = true)
    ∧ ((∃ s ∈ scenarioDB.students, s.email = "bob@example.com") ∧
      isErr (insertStudent scenarioDB
        { student_id := 9, first_name := "Zed", last_name := "Zulu",
          nickname := "", email := "bob@example.com",
          section_id := 1 }) = true)
    ∧ ((∃ x ∈ scenarioDB.enrollments, x.student_id = 2 ∧
        x.section_id = 1) ∧
      isErr (insertEnrollment scenarioDB
        { enroll_id := 9, student_id := 2, section_id := 1,
          enrolled_on := 7, is_active := false }) = true) :=
  ⟨⟨by decide,
    ((duplicate_inserts_fail scenarioDB
      { student_id := 9, first_name := "Alice", last_name := "Adams",
        nickname := "", email := "fresh@example.com", section_id := 1 }
      { enroll_id := 9, student_id := 2, section_id := 1,
        enrolled_on := 7, is_active := false }).1 (by decide)).1⟩,
   ⟨by decide,
    ((duplicate_inserts_fail scenarioDB
      { student_id := 9, first_name := "Zed", last_name := "Zulu",
        nickname := "", email := "bob@example.com", section_id := 1 }
      { enroll_id := 9, student_id := 2, section_id := 1,
        enrolled_on := 7, is_active := false }).2.1 (by decide)).1⟩,
   ⟨by decide,
    ((duplicate_inserts_fail scenarioDB
      { student_id := 9, first_name := "Zed", last_name := "Zulu",
        nickname := "", email := "fresh@example.com", section_id := 1 }
      { enroll_id := 9, student_id := 2, section_id := 1,
        enrolled_on := 7, is_active := false }).2.2 (by decide)).1⟩⟩

/-- C6: deleting a Section referenced by at least one Student or
Enrollment fails (PROTECT — no state change is produced), while deleting a
Student always succeeds, removes exactly that Student's Enrollments
(CASCADE), and leaves Sections and all other Students and Enrollments
unchanged. -/
theorem delete_protect_and_cascade (db : DB) (sid : Nat) :
    (((∃ st ∈ db.students, st.section_id = sid) ∨
      (∃ e ∈ db.enrollments, e.section_id = sid)) →
      isErr (deleteSection db sid) = true ∧
      ∀ db2, deleteSection db sid ≠ Except.ok db2)
    ∧ (deleteStudent db sid).sections = db.sections
    ∧ (∀ st : Student, st ∈ (deleteStudent db sid).students ↔
        st ∈ db.students ∧ st.student_id ≠ sid)
    ∧ (∀ e : Enrollment, e ∈ (deleteStudent db sid).enrollments ↔
        e ∈ db.enrollments ∧ e.student_id ≠ sid) := by
  refine ⟨?_, rfl, ?_, ?_⟩
  · intro hdep
    have hcond : (db.students.any (fun st => st.section_id == sid) ||
        db.enrollments.any (fun e => e.section_id == sid)) = true := by
      rcases hdep with ⟨st, hmem, h1⟩ | ⟨e, hmem, h1⟩
      · exact Bool.or_eq_true_iff.mpr
          (Or.inl (List.any_eq_true.mpr ⟨st, hmem, by simp [h1]⟩))
      · exact Bool.or_eq_true_iff.mpr
          (Or.inr (List.any_eq_true.mpr ⟨e, hmem, by simp [h1]⟩))
    unfold deleteSection
    rw [if_pos hcond]
    exact ⟨rfl, fun db2 h => Except.noConfusion h⟩
  · intro st
    show st ∈ db.students.filter (fun st => !(st.student_id == sid)) ↔ _
    rw [List.mem_filter]
    simp
  · intro e
    show e ∈ db.enrollments.filter (fun e => !(e.student_id == sid)) ↔ _
    rw [List.mem_filter]
    simp

theorem delete_protect_and_cascade_witness :
    (∃ st ∈ scenarioDB.students, st.section_id = 1) ∧
    isErr (deleteSection scenarioDB 1) = true ∧
    (deleteStudent scenarioDB 1).sections = scenarioDB.sections ∧
    (({ enroll_id := 3, student_id := 2, section_id := 1,
        enrolled_on := 0, is_active := true } : Enrollment) ∈
      (deleteStudent scenarioDB 1).enrollments ↔
      ({ enroll_id := 3, student_id := 2, section_id := 1,
         enrolled_on := 0, is_active := true } : Enrollment) ∈
        scenarioDB.enrollments ∧ (2 : Nat) ≠ 1) :=
  ⟨by decide,
   ((delete_protect_and_cascade scenarioDB 1).1 (Or.inl (by decide))).1,
   (delete_protect_and_cascade scenarioDB 1).2.1,
   (delete_protect_and_cascade scenarioDB 1).2.2.2
     { enroll_id := 3, student_id := 2, section_id := 1,
       enrolled_on := 0, is_active := true }⟩

/-- C7 counterexample: the claim says every NON-EMPTY query string is
matched as given, but `api_students` strips it first. On a database whose
only Student has no whitespace in any searched field, the query `" "` is
non-empty, the claim mandates an empty result, yet the endpoint returns
the full roster (count 1). -/
theorem api_students_whitespace_query_counterexample :
    (" " : String) ≠ "" ∧
    spec_filtered_roster C7db " " = [] ∧
    (api_students C7db (some " ")).1 = 1 ∧
    (api_students C7db (some " ")).2 =
      [{ student_id := 1, first_name := "Alice", last_name := "Smith",
         nickname := "", email := "alice@example.com",
         section__code := "CS101-A" }] := by
  refine ⟨by decide, by decide, by decide, by decide⟩

/-- C7 (amended): `api_students` strips the query parameter first; when
the stripped string is non-empty it returns exactly the Students matching
the STRIPPED string case-insensitively on first name OR last name OR
nickname; when the stripped string is empty (parameter absent, empty, or
whitespace-only) it returns all Students; in both cases results are
ordered by last name then first name and `count` equals the number of
results. -/
theorem api_students_filters_on_stripped_query (db : DB)
    (qparam : Option String) :
    (api_students db qparam).1 = (api_students db qparam).2.length
    ∧ (strip (qparam.getD "") ≠ "" →
        ∀ r : ApiStudentRow, r ∈ (api_students db qparam).2 ↔
          ∃ st ∈ db.students, toApiRow db st = r ∧
            (icontains st.first_name (strip (qparam.getD "")) ||
             icontains st.last_name (strip (qparam.getD "")) ||
             icontains st.nickname (strip (qparam.getD ""))) = true)
    ∧ (strip (qparam.getD "") = "" →
        ∀ r : ApiStudentRow, r ∈ (api_students db qparam).2 ↔
          ∃ st ∈ db.students, toApiRow db st = r)
    ∧ List.Pairwise (fun a b =>
        a.last_name < b.last_name ∨
        (a.last_name = b.last_name ∧ a.first_name ≤ b.first_name))
        (api_students db qparam).2 := by
  refine ⟨rfl, ?_, ?_, ?_⟩
  · intro h r
    show r ∈ sortBy apiRowLe (api_students_qs db (strip (qparam.getD "")))
      ↔ _
    rw [mem_sortBy]
    unfold api_students_qs
    rw [if_pos h]
    constructor
    · intro hr
      rcases List.mem_map.mp hr with ⟨st, hst, rfl⟩
      rcases List.mem_filter.mp hst with ⟨hmem, hp⟩
      exact ⟨st, hmem, rfl, hp⟩
    · rintro ⟨st, hmem, rfl, hp⟩
      exact List.mem_map.mpr ⟨st, List.mem_filter.mpr ⟨hmem, hp⟩, rfl⟩
  · intro h r
    show r ∈ sortBy apiRowLe (api_students_qs db (strip (qparam.getD "")))
      ↔ _
    rw [mem_sortBy]
    unfold api_students_qs
    rw [if_neg (fun hne => hne h)]
    constructor
    · intro hr
      rcases List.mem_map.mp hr with ⟨st, hst, rfl⟩
      exact ⟨st, hst, rfl⟩
    · rintro ⟨st, hmem, rfl⟩
      exact List.mem_map.mpr ⟨st, hmem, rfl⟩
  · exact (sorted_sortBy apiRowLe_trans apiRowLe_total
      (api_students_qs db (strip (qparam.getD "")))).imp
      (fun h => nameLe_imp h)

theorem api_students_filters_on_stripped_query_witness :
    strip ((some "  ali ").getD "") ≠ "" ∧
    (({ student_id := 1, first_name := "Alice", last_name := "Smith",
        nickname := "", email := "alice@example.com",
        section__code := "CS101-A" } : ApiStudentRow) ∈
      (api_students C7db (some "  ali ")).2 ↔
      ∃ st ∈ C7db.students,
        toApiRow C7db st =
          ({ student_id := 1, first_name := "Alice", last_name := "Smith",
             nickname := "", email := "alice@example.com",
             section__code := "CS101-A" } : ApiStudentRow) ∧
        (icontains st.first_name (strip ((some "  ali ").getD "")) ||
         icontains st.last_name (strip ((some "  ali ").getD "")) ||
         icontains st.nickname (strip ((some "  ali ").getD ""))) = true) :=
  ⟨by decide,
   (api_students_filters_on_stripped_query C7db (some "  ali ")).2.1
     (by decide)
     { student_id := 1, first_name := "Alice", last_name := "Smith",
       nickname := "", email := "alice@example.com",
       section__code := "CS101-A" }⟩

/-- C9 counterexample: the claim asserts SOME database state and request
on which the two same-named `api_students` definitions produce results
differing in shape or content; in fact the two definitions are
textually identical pipelines, so no such input exists. -/
theorem api_students_definitions_never_differ :
    ¬ ∃ (db : DB) (qparam : Option String),
      api_students_v1 db qparam ≠ api_students db qparam :=
  fun ⟨_, _, h⟩ => h rfl

/-- C9 (amended): the source defines two "all students" listing functions
under the same name `api_students`, the second silently shadowing the
first at module load; the two definitions are identical and compute the
same result on every database state and request. -/
theorem api_students_shadowed_definition_equal
    (db : DB) (qparam : Option String) :
    api_students_v1 db qparam = api_students db qparam :=
  rfl

/-- C10: when the `q` parameter is present and non-empty, the HTML student
list view's `search_results` are exactly the Students whose FIRST name
contains `q` case-insensitively (last name and nickname are not
consulted), under the model Meta ordering; when `q` is absent (or empty)
the context value is `None`, not the full roster. -/
theorem student_list_search_consults_first_name_only (db : DB)
    (qp : Option String) :
    (∀ q : String, qp = some q → q ≠ "" →
      ∃ l, studentListView_search_results db qp = some l ∧
        List.Pairwise (fun a b => studentLe a b = true) l ∧
        ∀ st : Student, st ∈ l ↔
          st ∈ db.students ∧ icontains st.first_name q = true)
    ∧ (qp = none → studentListView_search_results db qp = none)
    ∧ (qp = some "" → studentListView_search_results db qp = none) := by
  refine ⟨?_, ?_, ?_⟩
  · rintro q rfl h
    refine ⟨sortBy studentLe (db.students.filter
      (fun st => icontains st.first_name q)), ?_, ?_, ?_⟩
    · show (if q ≠ "" then
          some (sortBy studentLe (db.students.filter
            (fun st => icontains st.first_name q)))
        else none) =
        some (sortBy studentLe (db.students.filter
          (fun st => icontains st.first_name q)))
      rw [if_pos h]
    · exact sorted_sortBy studentLe_trans studentLe_total _
    · intro st
      rw [mem_sortBy, List.mem_filter]
  · rintro rfl
    rfl
  · rintro rfl
    rfl

theorem student_list_search_consults_first_name_only_witness :
    ("Ali" : String) ≠ "" ∧
    (∃ l, studentListView_search_results C7db (some "Ali") = some l ∧
      List.Pairwise (fun a b => studentLe a b = true) l ∧
      ∀ st : Student, st ∈ l ↔
        st ∈ C7db.students ∧ icontains st.first_name "Ali" = true) ∧
    studentListView_search_results C7db none = none :=
  ⟨by decide,
   (student_list_search_consults_first_name_only C7db (some "Ali")).1
     "Ali" rfl (by decide),
   (student_list_search_consults_first_name_only C7db none).2.1 rfl⟩

theorem sqlCount_append {α : Type} (x y : List (Option α)) :
    sqlCount (x ++ y) = sqlCount x + sqlCount y := by
  unfold sqlCount
  rw [List.filter_append, List.length_append]

theorem sqlCount_flatMap {α β : Type} (f : α → List (Option β))
    (l : List α) :
    sqlCount (l.flatMap f) = (l.map (fun a => sqlCount (f a))).sum := by
  induction l with
  | nil => rfl
  | cons a t ih =>
    rw [List.flatMap_cons, sqlCount_append, ih, List.map_cons,
      List.sum_cons]

theorem length_filter_or_disjoint {α : Type} (p q : α → Bool)
    (l : List α) (hdis : ∀ a ∈ l, p a = true → q a = false) :
    (l.filter (fun a => p a || q a)).length =
      (l.filter p).length + (l.filter q).length := by
  induction l with
  | nil => rfl
  | cons a t ih =>
    have iht := ih (fun x hx hp => hdis x (List.mem_cons_of_mem a hx) hp)
    cases hp : p a with
    | true =>
      have hq := hdis a (List.mem_cons_self a t) hp
      simp [List.filter_cons, hp, hq, iht]
      omega
    | false =>
      cases hq : q a with
      | true =>
        simp [List.filter_cons, hp, hq, iht]
        omega
      | false =>
        simp [List.filter_cons, hp, hq, iht]

theorem sum_filter_counts_eq (sts : List Student) :
    ∀ secs : List Section,
    (secs.map (fun s => s.section_id)).Nodup →
    (secs.map (fun sec => (sts.filter
      (fun st => st.section_id == sec.section_id)).length)).sum =
      (sts.filter (fun st => secs.any
        (fun sec => st.section_id == sec.section_id))).length
  | [], _ => by simp
  | sec :: rest, hnd => by
    have hnd2 : (∀ x ∈ rest, ¬ x.section_id = sec.section_id) ∧
        (rest.map (fun s => s.section_id)).Nodup := by simpa using hnd
    have hdis : ∀ st ∈ sts, (st.section_id == sec.section_id) = true →
        (rest.any (fun s2 => st.section_id == s2.section_id)) = false := by
      intro st _ hp
      have hpe : st.section_id = sec.section_id := by simpa using hp
      refine List.any_eq_false.mpr ?_
      intro s2 hs2 hbe
      have heq2 : s2.section_id = sec.section_id := by
        have h3 : st.section_id = s2.section_id := by simpa using hbe
        rw [← h3, hpe]
      exact hnd2.1 s2 hs2 heq2
    rw [List.map_cons, List.sum_cons,
      sum_filter_counts_eq sts rest hnd2.2]
    rw [← length_filter_or_disjoint _ _ sts hdis]
    congr 1

/-- C8: the per-term aggregation groups Sections by their term label —
Sections with a blank term all falling into the single `""`
("unspecified") bucket, each label forming exactly one bucket — and, for
every bucket, reports the total number of Students across all Sections
carrying that term (stated for states whose Section primary keys are
unique, as the datastore guarantees); buckets are ordered by term
ascending. -/
theorem per_term_aggregation_correct (db : DB)
    (hpk : (db.sections.map (fun s => s.section_id)).Nodup) :
    (∀ sec ∈ db.sections, ∃ n, (sec.term, n) ∈ students_per_term db)
    ∧ ((students_per_term db).map Prod.fst).Nodup
    ∧ List.Pairwise (fun a b => a.1 ≤ b.1) (students_per_term db)
    ∧ (∀ t n, (t, n) ∈ students_per_term db →
        n = (db.students.filter (fun st =>
          (db.sections.filter (fun s => s.term == t)).any
            (fun sec => st.section_id == sec.section_id))).length) := by
  have hkeys : (students_per_term db).map Prod.fst =
      sortBy strLe ((db.sections.map (fun s => s.term)).dedup) := by
    unfold students_per_term
    rw [List.map_map]
    exact List.map_id _
  refine ⟨?_, ?_, ?_, ?_⟩
  · intro sec hmem
    refine ⟨_, List.mem_map_of_mem _ ?_⟩
    rw [mem_sortBy, List.mem_dedup]
    exact List.mem_map_of_mem (fun s => s.term) hmem
  · rw [hkeys]
    exact ((sortBy_perm strLe _).nodup_iff).mpr (List.nodup_dedup _)
  · unfold students_per_term
    rw [List.pairwise_map]
    exact (@sorted_sortBy String strLe
      (fun a b c hab hbc => strLe_trans hab hbc)
      strLe_total _).imp (fun h => strLe_le h)
  · intro t n hmem
    unfold students_per_term at hmem
    rcases List.mem_map.mp hmem with ⟨t2, _, heq⟩
    have ht : t2 = t := congrArg Prod.fst heq
    subst ht
    have hn : n = sqlCount ((db.sections.filter
        (fun s => s.term == t2)).flatMap
        (fun sec => leftJoinRows (db.students.filter
          (fun st => st.section_id == sec.section_id)))) :=
      (congrArg Prod.snd heq).symm
    rw [hn, sqlCount_flatMap,
      List.map_congr_left (fun sec _ => sqlCount_leftJoinRows
        (db.students.filter (fun st => st.section_id == sec.section_id))),
      sum_filter_counts_eq db.students (db.sections.filter
        (fun s => s.term == t2))
        (((List.filter_sublist db.sections).map
          (fun s => s.section_id)).nodup hpk)]

theorem per_term_aggregation_correct_witness :
    (C8db.sections.map (fun s => s.section_id)).Nodup ∧
    ((students_per_term C8db).map Prod.fst).Nodup ∧
    (∃ n, (("" : String), n) ∈ students_per_term C8db) :=
  ⟨by decide,
   (per_term_aggregation_correct C8db (by decide)).2.1,
   (per_term_aggregation_correct C8db (by decide)).1
     { section_id := 2, code := "CS101-B",
       name := "Intro to CS - B", term := "" } (by decide)⟩
